import Mathlib

/-
A shallow embedding of src/queue.c, a thread-safe FIFO queue with a
fair blocking/wakeup protocol (one condition variable per waiter).

Modelling conventions:
  - the two linked lists (DataElement chain, QueueNode chain) become Lean
    lists ordered head to tail; the redundant head/tail pointers are the
    head and last element of the list;
  - the atomic_ulong counters become Nat fields updated exactly where the
    C code updates them (they are deliberately kept separate from the list
    length, since the C code maintains them separately);
  - the C int field carrying an item sequence index or a waiter index is
    an Int (the registry lookup returns the sentinel -1);
  - thrd_t thread identities are Nat; cnd_t condition variables carry no
    state of their own, a signal is modelled as an event naming its target;
  - code reached only with the shared lock held is modelled as atomic
    state transitions; cnd_wait splits the dequeue critical section into
    an entry phase and a wake phase, modelled separately below.

The C file uses a few inconsistent identifiers (dataQueue for the static
variable declared data_queue, thread_id for the QueueNode field declared
id, waiting_on_index for the field declared wait_condition, and a call to
appendToDataQueue whose definition is spelled addToDataQueue); the
embedding uses the reading under which the file is well formed, keeping
the names used at the call sites.
-/

namespace OSQueue

/-- An element of the data queue: its sequence index (C int, assigned from
items_enqueued at creation) and its payload handle (the void pointer). -/
structure DataElement where
  index : Int
  pointer : Nat
deriving DecidableEq

/-- The data queue: the linked list of elements (head to tail) and the three
counters, mirroring struct DataQueue. -/
structure DataQueue where
  items : List DataElement
  total_size : Nat
  items_processed : Nat
  items_enqueued : Nat
deriving DecidableEq

/-- A waiter record, mirroring struct QueueNode: owning thread, termination
flag, and the sequence index this waiter is entitled to consume. -/
structure QueueNode where
  thread_id : Nat
  terminated : Bool
  waiting_on_index : Int
deriving DecidableEq

/-- The waiter registry, mirroring struct ThreadQueue: the linked list of
waiter records (head to tail) and the waiting counter. -/
structure ThreadQueue where
  nodes : List QueueNode
  waiting_thread_count : Nat
deriving DecidableEq

/-- initQueue: both structures zeroed, all pointers NULL. -/
def initQueue : DataQueue × ThreadQueue :=
  (⟨[], 0, 0, 0⟩, ⟨[], 0⟩)

/-- createDataElement: the new element records the current items_enqueued
counter as its index. -/
def createDataElement (data : Nat) (dq : DataQueue) : DataElement :=
  { index := Int.ofNat dq.items_enqueued, pointer := data }

/-- appendToEmptyDataQueue: head and tail are set to the new element (any
previous list would be dropped, exactly as the pointer writes would drop
it), both size and items_enqueued are incremented. -/
def appendToEmptyDataQueue (e : DataElement) (dq : DataQueue) : DataQueue :=
  { dq with
    items := [e]
    total_size := dq.total_size + 1
    items_enqueued := dq.items_enqueued + 1 }

/-- appendToPopulatedDataQueue: the element is linked after the tail. -/
def appendToPopulatedDataQueue (e : DataElement) (dq : DataQueue) : DataQueue :=
  { dq with
    items := dq.items ++ [e]
    total_size := dq.total_size + 1
    items_enqueued := dq.items_enqueued + 1 }

/-- appendToDataQueue (defined in the C file as addToDataQueue): dispatch on
total_size == 0. -/
def appendToDataQueue (e : DataElement) (dq : DataQueue) : DataQueue :=
  if dq.total_size = 0 then appendToEmptyDataQueue e dq
  else appendToPopulatedDataQueue e dq

/-- enqueue: the part executed under the lock (element creation and append).
The post-unlock conditional signal is modelled by enqueueSignalTarget. -/
def enqueue (data : Nat) (dq : DataQueue) : DataQueue :=
  appendToDataQueue (createDataElement data dq) dq

/-- The signal issued by enqueue after unlocking: if the queue is non-empty
and some thread is waiting, the registry head waiter's private condition is
signalled; the value is the thread identity of the signalled waiter. -/
def enqueueSignalTarget (dq : DataQueue) (tq : ThreadQueue) : Option Nat :=
  if 0 < dq.total_size ∧ 0 < tq.waiting_thread_count then
    tq.nodes.head?.map (fun n => n.thread_id)
  else none

/-- The scan inside fetchFirstWaitConditionStatus: walk the registry from the
head, return the waiting index of the first node owned by the given thread,
or the sentinel -1 when no node is owned by it. -/
def lookupWaitIndex (tid : Nat) : List QueueNode → Int
  | [] => -1
  | n :: rest => if n.thread_id = tid then n.waiting_on_index else lookupWaitIndex tid rest

/-- fetchFirstWaitConditionStatus: the calling thread's registered waiting
index, or -1 when the caller holds no registry record. -/
def fetchFirstWaitConditionStatus (tid : Nat) (tq : ThreadQueue) : Int :=
  lookupWaitIndex tid tq.nodes

/-- The index of the element at the head of the data queue. The C code reads
dataQueue.head->index only on paths where the head is non-NULL; the default
0 covers the (unreachable there) empty case. -/
def headItemIndex (dq : DataQueue) : Int :=
  match dq.items with
  | [] => 0
  | e :: _ => e.index

/-- checkIfThreadShouldYield: yield when the queue is empty; do not yield
when waiting_thread_count <= total_size; otherwise yield exactly when the
caller's looked-up waiting index exceeds the front item's index. -/
def checkIfThreadShouldYield (tid : Nat) (dq : DataQueue) (tq : ThreadQueue) : Bool :=
  if dq.total_size = 0 then true
  else if tq.waiting_thread_count ≤ dq.total_size then false
  else decide (fetchFirstWaitConditionStatus tid tq > headItemIndex dq)

/-- createThreadQueueNode: fresh record for the calling thread, not
terminated, entitled to index items_enqueued + waiting_thread_count. -/
def createThreadQueueNode (tid : Nat) (dq : DataQueue) (tq : ThreadQueue) : QueueNode :=
  { thread_id := tid
    terminated := false
    waiting_on_index := Int.ofNat (dq.items_enqueued + tq.waiting_thread_count) }

/-- appendToEmptyThreadQueue: head and tail both point at the new node. -/
def appendToEmptyThreadQueue (n : QueueNode) (tq : ThreadQueue) : ThreadQueue :=
  { nodes := [n], waiting_thread_count := tq.waiting_thread_count + 1 }

/-- appendToPopulatedThreadQueue: the node is linked after the tail. -/
def appendToPopulatedThreadQueue (n : QueueNode) (tq : ThreadQueue) : ThreadQueue :=
  { nodes := tq.nodes ++ [n], waiting_thread_count := tq.waiting_thread_count + 1 }

/-- appendToThreadQueue: dispatch on waiting_thread_count == 0. -/
def appendToThreadQueue (n : QueueNode) (tq : ThreadQueue) : ThreadQueue :=
  if tq.waiting_thread_count = 0 then appendToEmptyThreadQueue n tq
  else appendToPopulatedThreadQueue n tq

/-- enqueueQueueNode: create a node for the calling thread and append it.
Called unconditionally at the top of every iteration of the dequeue loop. -/
def enqueueQueueNode (tid : Nat) (dq : DataQueue) (tq : ThreadQueue) : ThreadQueue :=
  appendToThreadQueue (createThreadQueueNode tid dq tq) tq

/-- dequeueQueueNode: unlink and free the registry head, decrement the
waiting counter. The C code would dereference a NULL head on an empty
registry; callers reach it with a non-empty registry. -/
def dequeueQueueNode (tq : ThreadQueue) : ThreadQueue :=
  match tq.nodes with
  | [] => tq
  | _ :: rest => { nodes := rest, waiting_thread_count := tq.waiting_thread_count - 1 }

/-- Lines 195-198 of dequeue: after waking, if the data queue head is
non-NULL and the caller's looked-up waiting index is <= the front item's
index, pop the registry front waiter. -/
def postWakePop (tid : Nat) (dq : DataQueue) (tq : ThreadQueue) : ThreadQueue :=
  if dq.items ≠ [] ∧ fetchFirstWaitConditionStatus tid tq ≤ headItemIndex dq then
    dequeueQueueNode tq
  else tq

/-- Removing the front data element (dequeue lines 201-211, and the matching
lines of tryDequeue): unlink the head, clear the tail when the list empties,
decrement total_size, increment items_processed, hand back the payload. The
C code dereferences a NULL head here when the list is empty (modelled as
none). -/
def popFrontItem (dq : DataQueue) : Option (Nat × DataQueue) :=
  match dq.items with
  | [] => none
  | e :: rest =>
      some (e.pointer,
        { items := rest
          total_size := dq.total_size - 1
          items_processed := dq.items_processed + 1
          items_enqueued := dq.items_enqueued })

/-- The blocking dequeue as observed at a quiescent point: when the yield
test fails the caller pops the front item without ever touching the waiter
registry; when the yield test holds the caller would block (none). The
blocked iterations are modelled by dequeueAfterWake. -/
def dequeue (tid : Nat) (dq : DataQueue) (tq : ThreadQueue) : Option (Nat × DataQueue) :=
  if checkIfThreadShouldYield tid dq tq then none else popFrontItem dq

/-- Lines 186-194 of dequeue, the branch taken when the waiter wakes with its
terminated flag set: read threadQueue.head, advance it past itself, free it.
When the registry head is already NULL (as it is after teardownThreadQueue
emptied the registry) the read of previousHead->successor faults: none.
The branch does not touch waiting_thread_count and contains no return. -/
def terminatedBranch (tq : ThreadQueue) : Option ThreadQueue :=
  match tq.nodes with
  | [] => none
  | _ :: rest => some { tq with nodes := rest }

/-- What one resumption of the dequeue loop does after cnd_wait returns. -/
inductive WakeOutcome where
  /-- The code dereferences a NULL pointer. -/
  | nullDeref : WakeOutcome
  /-- The loop guard still holds: the body runs again (registering again and
  waiting again); the state at the re-entry of the guard is recorded. -/
  | continueLoop (dq : DataQueue) (tq : ThreadQueue) : WakeOutcome
  /-- The loop exits and the front item is popped and returned. -/
  | returnsItem (payload : Nat) (dq : DataQueue) (tq : ThreadQueue) : WakeOutcome
deriving DecidableEq

/-- One resumption of the dequeue loop after cnd_wait returns (lines
186-199 followed by the re-evaluation of the guard at line 181 and, when it
fails, the pop at lines 201-212). `term` is the terminated flag of the
waiter node the thread waited on. -/
def dequeueAfterWake (tid : Nat) (term : Bool) (dq : DataQueue) (tq : ThreadQueue) :
    WakeOutcome :=
  match (if term then terminatedBranch tq else some tq) with
  | none => WakeOutcome.nullDeref
  | some tq1 =>
      let tq2 := postWakePop tid dq tq1
      if checkIfThreadShouldYield tid dq tq2 then
        WakeOutcome.continueLoop dq tq2
      else
        match popFrontItem dq with
        | none => WakeOutcome.nullDeref
        | some (p, dq2) => WakeOutcome.returnsItem p dq2 tq2

/-- tryDequeue: fail (returning none and leaving the state untouched) when
total_size == 0 or the head is NULL; otherwise pop the front element exactly
as the blocking path does. -/
def tryDequeue (dq : DataQueue) : Option Nat × DataQueue :=
  if dq.total_size = 0 ∨ dq.items = [] then (none, dq)
  else
    match dq.items with
    | [] => (none, dq)
    | e :: rest =>
        (some e.pointer,
         { items := rest
           total_size := dq.total_size - 1
           items_processed := dq.items_processed + 1
           items_enqueued := dq.items_enqueued })

/-- removeAllDataElements: free every element of the data queue and zero the
head, the tail and all three counters; the first component is the list of
freed elements, in the order they are freed. -/
def removeAllDataElements (dq : DataQueue) : List DataElement × DataQueue :=
  (dq.items, { items := [], total_size := 0, items_processed := 0, items_enqueued := 0 })

/-- The walk inside teardownThreadQueue: each registry node in turn has its
terminated flag set and its private condition signalled (exactly one signal
per node); the produced list records those signal events in order. -/
def teardownWalk : List QueueNode → List QueueNode
  | [] => []
  | n :: rest => { n with terminated := true } :: teardownWalk rest

/-- teardownThreadQueue: walk the registry marking every waiter terminated
and signalling each private condition once, leaving head NULL, then zero the
tail and the waiting counter. The first component is the ordered list of
signalled (now terminated) waiters. -/
def teardownThreadQueue (tq : ThreadQueue) : List QueueNode × ThreadQueue :=
  (teardownWalk tq.nodes, { nodes := [], waiting_thread_count := 0 })

/-- destroyQueue: under the lock, free all data elements then tear down the
thread queue. Returns the freed elements, the signalled waiters, and the two
final structures. -/
def destroyQueue (dq : DataQueue) (tq : ThreadQueue) :
    List DataElement × List QueueNode × DataQueue × ThreadQueue :=
  ((removeAllDataElements dq).1, (teardownThreadQueue tq).1,
   (removeAllDataElements dq).2, (teardownThreadQueue tq).2)

/-- size: snapshot of total_size. -/
def size (dq : DataQueue) : Nat := dq.total_size

/-- waiting: snapshot of waiting_thread_count. -/
def waiting (tq : ThreadQueue) : Nat := tq.waiting_thread_count

/-- visited: snapshot of items_processed. -/
def visited (dq : DataQueue) : Nat := dq.items_processed

/-- The yield condition as the specification words it: yield exactly when
(a) the queue is empty, or (b) the number of registered waiters is at least
the queue size and the calling thread's looked-up waiting index is strictly
greater than the front item's sequence index. Stated for comparison with
checkIfThreadShouldYield, which is translated from the code. -/
def yieldRequiredSpec (tid : Nat) (dq : DataQueue) (tq : ThreadQueue) : Bool :=
  decide (dq.total_size = 0) ||
    (decide (dq.total_size ≤ tq.waiting_thread_count) &&
      decide (fetchFirstWaitConditionStatus tid tq > headItemIndex dq))

/-- Where a consumer thread stands in its dequeue call. -/
inductive Phase where
  | idle : Phase
  | blocked : Phase
  | got (payload : Nat) : Phase
  | crashed : Phase
deriving DecidableEq

/-- A two-consumer, one-producer system: the shared structures plus the
phase of each consumer. Consumer 1 has thread identity 1, consumer 2 has
thread identity 2. -/
structure SysState where
  dq : DataQueue
  tq : ThreadQueue
  ph1 : Phase
  ph2 : Phase
deriving DecidableEq

/-- The critical section a consumer runs on entering dequeue: evaluate the
loop guard; when it holds, register (enqueueQueueNode) and suspend on the
private condition (releasing the lock); otherwise pop the front item and
return it. -/
def dequeueEnter (tid : Nat) (dq : DataQueue) (tq : ThreadQueue) :
    Phase × DataQueue × ThreadQueue :=
  if checkIfThreadShouldYield tid dq tq then
    (Phase.blocked, dq, enqueueQueueNode tid dq tq)
  else
    match popFrontItem dq with
    | none => (Phase.crashed, dq, tq)
    | some (p, dq2) => (Phase.got p, dq2, tq)

/-- The critical section a consumer runs when its cnd_wait returns (having
reacquired the lock): one resumption of the loop as in dequeueAfterWake;
when the guard holds again the body registers again and suspends again. -/
def dequeueWake (tid : Nat) (term : Bool) (dq : DataQueue) (tq : ThreadQueue) :
    Phase × DataQueue × ThreadQueue :=
  match dequeueAfterWake tid term dq tq with
  | WakeOutcome.nullDeref => (Phase.crashed, dq, tq)
  | WakeOutcome.continueLoop dq2 tq2 => (Phase.blocked, dq2, enqueueQueueNode tid dq2 tq2)
  | WakeOutcome.returnsItem p dq2 tq2 => (Phase.got p, dq2, tq2)

/-- Scheduler events: a consumer enters dequeue, a blocked consumer's
cnd_wait returns (C11 allows this whenever the thread is blocked - a signal
aimed at it or a spurious wakeup), or the producer runs one enqueue. -/
inductive Evt where
  | enter1 : Evt
  | enter2 : Evt
  | wake1 : Evt
  | wake2 : Evt
  | produce (x : Nat) : Evt
deriving DecidableEq

/-- One scheduler step. Wake events apply only to a blocked consumer; enter
events only to an idle one; other combinations leave the state unchanged. -/
def stepEvt (e : Evt) (s : SysState) : SysState :=
  match e with
  | Evt.enter1 =>
      if s.ph1 = Phase.idle then
        match dequeueEnter 1 s.dq s.tq with
        | (ph, dq2, tq2) => { s with ph1 := ph, dq := dq2, tq := tq2 }
      else s
  | Evt.enter2 =>
      if s.ph2 = Phase.idle then
        match dequeueEnter 2 s.dq s.tq with
        | (ph, dq2, tq2) => { s with ph2 := ph, dq := dq2, tq := tq2 }
      else s
  | Evt.wake1 =>
      if s.ph1 = Phase.blocked then
        match dequeueWake 1 false s.dq s.tq with
        | (ph, dq2, tq2) => { s with ph1 := ph, dq := dq2, tq := tq2 }
      else s
  | Evt.wake2 =>
      if s.ph2 = Phase.blocked then
        match dequeueWake 2 false s.dq s.tq with
        | (ph, dq2, tq2) => { s with ph2 := ph, dq := dq2, tq := tq2 }
      else s
  | Evt.produce x => { s with dq := enqueue x s.dq }

/-- Run a whole schedule from a state. -/
def runSched (evts : List Evt) (s : SysState) : SysState :=
  evts.foldl (fun st e => stepEvt e st) s

/-- The freshly initialized system: initQueue has run, both consumers are
outside the queue. -/
def initialSystem : SysState :=
  { dq := (initQueue).1, tq := (initQueue).2, ph1 := Phase.idle, ph2 := Phase.idle }

/-- The schedule refuting fairness: both consumers block on the empty queue
(consumer 1 first), the producer enqueues 100 then 200, then consumer 2's
cnd_wait returns before consumer 1 runs. -/
def stolenItemSchedule : List Evt :=
  [Evt.enter1, Evt.enter2, Evt.produce 100, Evt.produce 200, Evt.wake2, Evt.wake1]

/-- Three sequential blocking dequeues by one thread (each one the quiescent
fast path when its yield test fails), threading the data queue through and
collecting the three payloads. -/
def dequeue3 (tid : Nat) (dq : DataQueue) (tq : ThreadQueue) : Option (Nat × Nat × Nat) :=
  match dequeue tid dq tq with
  | none => none
  | some (x, dq1) =>
      match dequeue tid dq1 tq with
      | none => none
      | some (y, dq2) =>
          match dequeue tid dq2 tq with
          | none => none
          | some (z, _) => some (x, y, z)

/-- The registry scan returns the sentinel -1 for a thread owning no record. -/
theorem lookupWaitIndex_of_unregistered (tid : Nat) (l : List QueueNode)
    (h : ∀ n ∈ l, n.thread_id ≠ tid) : lookupWaitIndex tid l = -1 := by
  induction l with
  | nil => rfl
  | cons n rest ih =>
      have hn : n.thread_id ≠ tid := h n (by simp)
      simp only [lookupWaitIndex, if_neg hn]
      exact ih (fun m hm => h m (by simp [hm]))

/-- An unregistered thread never yields on a non-empty queue whose front index
is non-negative: either few enough threads wait, or the sentinel -1 fails the
comparison with the front index. -/
theorem yield_false_of_unregistered (tid : Nat) (dq : DataQueue) (tq : ThreadQueue)
    (hreg : ∀ n ∈ tq.nodes, n.thread_id ≠ tid)
    (hsz : dq.total_size ≠ 0) (hidx : 0 ≤ headItemIndex dq) :
    checkIfThreadShouldYield tid dq tq = false := by
  unfold checkIfThreadShouldYield
  rw [if_neg hsz]
  by_cases hc : tq.waiting_thread_count ≤ dq.total_size
  · rw [if_pos hc]
  · rw [if_neg hc]
    have hl : fetchFirstWaitConditionStatus tid tq = -1 :=
      lookupWaitIndex_of_unregistered tid tq.nodes hreg
    rw [hl]
    simp only [gt_iff_lt, decide_eq_false_iff_not, not_lt]
    omega

/-- The teardown walk is exactly a map setting every terminated flag. -/
theorem teardownWalk_eq_map (l : List QueueNode) :
    teardownWalk l = l.map (fun n => { n with terminated := true }) := by
  induction l with
  | nil => rfl
  | cons n rest ih => simp [teardownWalk, ih]

/-- Claim C1: the claim says that a dequeue waking with its terminated flag
set releases its registry entry and returns via the termination path, without
another loop iteration and without dereferencing the item queue head. The
code does neither: in the state shutdown actually leaves (registry head NULL,
because teardownThreadQueue emptied it before the waiter reacquired the
lock), the terminated branch dereferences the NULL registry head; and were a
head node still present, the branch falls through without any return and the
loop guard (true on the drained queue) starts another iteration. -/
theorem dequeue_terminated_wake_never_returns :
    dequeueAfterWake 1 true ⟨[], 0, 0, 0⟩ ⟨[], 0⟩ = WakeOutcome.nullDeref ∧
    dequeueAfterWake 1 true ⟨[], 0, 0, 0⟩ ⟨[⟨1, true, 0⟩], 1⟩ =
      WakeOutcome.continueLoop ⟨[], 0, 0, 0⟩ ⟨[], 1⟩ := by decide

/-- Claim C2: the claim says the yield test is true exactly when the queue is
empty, or the registered waiters number at least the queue size and the
calling thread's index exceeds the front index. In the state with two items
(indices 0 and 1), two registered waiters and caller thread 2 holding index
1, that condition holds (2 waiters, size 2, index 1 above front 0), yet the
code returns false: line 221 yields only when waiters strictly exceed the
size. -/
theorem yield_guard_boundary_mismatch :
    checkIfThreadShouldYield 2 ⟨[⟨0, 100⟩, ⟨1, 200⟩], 2, 0, 2⟩
      ⟨[⟨1, false, 0⟩, ⟨2, false, 1⟩], 2⟩ = false ∧
    yieldRequiredSpec 2 ⟨[⟨0, 100⟩, ⟨1, 200⟩], 2, 0, 2⟩
      ⟨[⟨1, false, 0⟩, ⟨2, false, 1⟩], 2⟩ = true := by decide

/-- Claim C3: the claim says each iteration of the yield loop registers only
if the thread is not already registered, so the registry never holds two
records for one thread. The loop body registers unconditionally: after
thread 1 blocks on the empty queue and its cnd_wait returns (a spurious
wakeup, legal in C11) while the guard still holds, the re-run body appends a
second record, and the registry holds two records for thread 1 within the
one dequeue call. -/
theorem dequeue_loop_registers_twice :
    (runSched [Evt.enter1, Evt.wake1] initialSystem).ph1 = Phase.blocked ∧
    ((runSched [Evt.enter1, Evt.wake1] initialSystem).tq.nodes.countP
      (fun n => n.thread_id == 1)) = 2 := by decide

/-- Claim C4 counterexample: the item queue is non-empty with front index 0
and the front registered waiter (thread 1) has target index 0 <= 0, so the
claim requires the front waiter to be popped regardless of which thread
runs; but when thread 2 (the second waiter, index 1) executes the wake-up
check, the registry is left untouched, because the code compares the
calling thread's own looked-up index, not the front waiter's. -/
theorem front_waiter_unpopped_counterexample :
    ((⟨[⟨1, false, 0⟩, ⟨2, false, 1⟩], 2⟩ : ThreadQueue).nodes.head?.map
        QueueNode.waiting_on_index = some 0) ∧
    headItemIndex ⟨[⟨0, 100⟩], 1, 0, 1⟩ = 0 ∧
    postWakePop 2 ⟨[⟨0, 100⟩], 1, 0, 1⟩ ⟨[⟨1, false, 0⟩, ⟨2, false, 1⟩], 2⟩ =
      ⟨[⟨1, false, 0⟩, ⟨2, false, 1⟩], 2⟩ := by decide

/-- Claim C4 as amended: the wake-up pop is governed by the calling thread's
own registry lookup (sentinel -1 when unregistered), not by the front
waiter's index: whenever the item queue is non-empty, the registry is
non-empty, and the caller's looked-up index is <= the front item's sequence
index, the front registered waiter is popped and the waiting count
decremented. -/
theorem postWakePop_caller_governed (tid : Nat) (dq : DataQueue) (tq : ThreadQueue)
    (e : DataElement) (rest : List DataElement) (w : QueueNode) (wrest : List QueueNode)
    (hitems : dq.items = e :: rest) (hnodes : tq.nodes = w :: wrest)
    (hle : fetchFirstWaitConditionStatus tid tq ≤ e.index) :
    postWakePop tid dq tq = ⟨wrest, tq.waiting_thread_count - 1⟩ := by
  have hhead : headItemIndex dq = e.index := by
    unfold headItemIndex
    rw [hitems]
  unfold postWakePop
  rw [if_pos ⟨by rw [hitems]; simp, by rw [hhead]; exact hle⟩]
  unfold dequeueQueueNode
  rw [hnodes]

/-- Claim C4 witness: the amended statement at a concrete input - the woken
caller is itself the front waiter, entitled to index 0, the front item has
index 0, and the pop leaves an empty registry with count 0. -/
theorem postWakePop_caller_governed_witness :
    fetchFirstWaitConditionStatus 1 ⟨[⟨1, false, 0⟩], 1⟩ ≤
      (⟨0, 7⟩ : DataElement).index ∧
    postWakePop 1 ⟨[⟨0, 7⟩], 1, 0, 1⟩ ⟨[⟨1, false, 0⟩], 1⟩ = ⟨[], 0⟩ :=
  ⟨by decide,
    postWakePop_caller_governed 1 ⟨[⟨0, 7⟩], 1, 0, 1⟩ ⟨[⟨1, false, 0⟩], 1⟩
      ⟨0, 7⟩ [] ⟨1, false, 0⟩ [] rfl rfl (by decide)⟩

/-- Claim C5: the claim says that when consumer 1 blocks before consumer 2 on
the empty queue and two items are then enqueued, consumer 1 receives the
first item and consumer 2 the second under every OS wake order. The schedule
in which consumer 2's cnd_wait returns first (a legal wake order - C11
permits spurious returns, and the loop is built to be re-checked) ends with
consumer 2 holding the first item (100) and consumer 1 the second (200):
with two items and two waiters the guard of line 221 lets the later waiter
exit the loop and pop the front item promised to the earlier one. -/
theorem unfair_schedule_swaps_items :
    (runSched stolenItemSchedule initialSystem).ph1 = Phase.got 200 ∧
    (runSched stolenItemSchedule initialSystem).ph2 = Phase.got 100 ∧
    (runSched stolenItemSchedule initialSystem).dq.items_processed = 2 := by decide

/-- Claim C6: from the freshly initialized queue with no registered waiters,
enqueue(a), enqueue(b), enqueue(c) followed by three sequential dequeues
returns a, b, c in that order, for every choice of payloads and of the
dequeuing thread. -/
theorem fifo_three_items (a b c tid : Nat) :
    dequeue3 tid (enqueue c (enqueue b (enqueue a (initQueue).1))) (initQueue).2 =
      some (a, b, c) := rfl

/-- Claim C7: tryDequeue on an empty queue fails leaving the whole data queue
(structure and counters) unchanged, and never touches the waiter registry
(it takes no part in it by construction); on a non-empty queue it removes
and returns exactly the item and final state that the blocking dequeue path
would have produced from the same state for an unregistered caller. -/
theorem tryDequeue_matches_blocking_dequeue (tid : Nat) (dq : DataQueue) (tq : ThreadQueue)
    (hreg : ∀ n ∈ tq.nodes, n.thread_id ≠ tid)
    (hidx : 0 ≤ headItemIndex dq)
    (hwf : dq.total_size = dq.items.length) :
    (dq.items = [] → tryDequeue dq = (none, dq)) ∧
    (∀ e rest, dq.items = e :: rest →
      tryDequeue dq =
        (some e.pointer, ⟨rest, dq.total_size - 1, dq.items_processed + 1, dq.items_enqueued⟩) ∧
      dequeue tid dq tq =
        some (e.pointer, ⟨rest, dq.total_size - 1, dq.items_processed + 1, dq.items_enqueued⟩)) := by
  constructor
  · intro h
    unfold tryDequeue
    rw [if_pos (Or.inr h)]
  · intro e rest h
    have hsz : dq.total_size ≠ 0 := by rw [hwf, h]; simp
    have hy : checkIfThreadShouldYield tid dq tq = false :=
      yield_false_of_unregistered tid dq tq hreg hsz hidx
    constructor
    · unfold tryDequeue
      rw [if_neg (not_or.mpr ⟨hsz, by rw [h]; simp⟩), h]
    · unfold dequeue
      rw [hy]
      simp only [Bool.false_eq_true, if_false]
      unfold popFrontItem
      rw [h]

/-- Claim C7 witness: the theorem at a concrete input - a one-item queue and
an empty registry; both paths return payload 42 and the same final state. -/
theorem tryDequeue_matches_blocking_dequeue_witness :
    (∀ n ∈ ([] : List QueueNode), n.thread_id ≠ 1) ∧
    (0 : Int) ≤ headItemIndex ⟨[⟨0, 42⟩], 1, 0, 1⟩ ∧
    tryDequeue ⟨[⟨0, 42⟩], 1, 0, 1⟩ = (some 42, ⟨[], 0, 1, 1⟩) ∧
    dequeue 1 ⟨[⟨0, 42⟩], 1, 0, 1⟩ ⟨[], 0⟩ = some (42, ⟨[], 0, 1, 1⟩) :=
  ⟨by simp, by decide,
    ((tryDequeue_matches_blocking_dequeue 1 ⟨[⟨0, 42⟩], 1, 0, 1⟩ ⟨[], 0⟩ (by simp)
        (by decide) (by decide)).2 ⟨0, 42⟩ [] rfl).1,
    ((tryDequeue_matches_blocking_dequeue 1 ⟨[⟨0, 42⟩], 1, 0, 1⟩ ⟨[], 0⟩ (by simp)
        (by decide) (by decide)).2 ⟨0, 42⟩ [] rfl).2⟩

/-- Claim C8: every public operation preserves the counter invariant
items_processed + total_size = items_enqueued: it holds of the initialized
queue, is preserved by enqueue, by a completing blocking dequeue, by
tryDequeue on both branches, and destroyQueue re-establishes it at zero. -/
theorem counter_invariant_preserved (data tid : Nat) (dq : DataQueue) (tq : ThreadQueue)
    (hinv : dq.items_processed + dq.total_size = dq.items_enqueued)
    (hwf : dq.total_size = dq.items.length) :
    ((initQueue).1.items_processed + (initQueue).1.total_size = (initQueue).1.items_enqueued) ∧
    ((enqueue data dq).items_processed + (enqueue data dq).total_size
        = (enqueue data dq).items_enqueued) ∧
    (∀ p dq2, dequeue tid dq tq = some (p, dq2) →
        dq2.items_processed + dq2.total_size = dq2.items_enqueued) ∧
    ((tryDequeue dq).2.items_processed + (tryDequeue dq).2.total_size
        = (tryDequeue dq).2.items_enqueued) ∧
    ((destroyQueue dq tq).2.2.1.items_processed + (destroyQueue dq tq).2.2.1.total_size
        = (destroyQueue dq tq).2.2.1.items_enqueued) := by
  refine ⟨rfl, ?_, ?_, ?_, rfl⟩
  · unfold enqueue appendToDataQueue
    by_cases h0 : dq.total_size = 0
    · rw [if_pos h0]
      unfold appendToEmptyDataQueue
      simp
      omega
    · rw [if_neg h0]
      unfold appendToPopulatedDataQueue
      simp
      omega
  · intro p dq2 hde
    unfold dequeue at hde
    rcases hb : checkIfThreadShouldYield tid dq tq with hfalse | htrue
    · rw [hb] at hde
      simp only [Bool.false_eq_true, if_false] at hde
      unfold popFrontItem at hde
      cases hitems : dq.items with
      | nil => rw [hitems] at hde; simp at hde
      | cons e rest =>
          rw [hitems] at hde
          simp only [Option.some.injEq, Prod.mk.injEq] at hde
          obtain ⟨hp, hdq2⟩ := hde
          subst hdq2
          have hlen : dq.total_size = rest.length + 1 := by rw [hwf, hitems]; simp
          simp only []
          omega
    · rw [hb] at hde
      simp at hde
  · by_cases hg : dq.total_size = 0 ∨ dq.items = []
    · unfold tryDequeue
      rw [if_pos hg]
      exact hinv
    · rw [not_or] at hg
      obtain ⟨hsz, hne⟩ := hg
      obtain ⟨e, rest, hitems⟩ := List.exists_cons_of_ne_nil hne
      unfold tryDequeue
      rw [if_neg (not_or.mpr ⟨hsz, hne⟩), hitems]
      simp only []
      have hlen : dq.total_size = rest.length + 1 := by rw [hwf, hitems]; simp
      omega

/-- Claim C8 witness: the theorem at a concrete input - a one-item queue
satisfying the invariant (0 + 1 = 1) and an empty registry. -/
theorem counter_invariant_preserved_witness :
    ((⟨[⟨0, 9⟩], 1, 0, 1⟩ : DataQueue).items_processed
        + (⟨[⟨0, 9⟩], 1, 0, 1⟩ : DataQueue).total_size
        = (⟨[⟨0, 9⟩], 1, 0, 1⟩ : DataQueue).items_enqueued) ∧
    ((⟨[⟨0, 9⟩], 1, 0, 1⟩ : DataQueue).total_size
        = (⟨[⟨0, 9⟩], 1, 0, 1⟩ : DataQueue).items.length) ∧
    (((initQueue).1.items_processed + (initQueue).1.total_size
        = (initQueue).1.items_enqueued) ∧
      ((enqueue 5 ⟨[⟨0, 9⟩], 1, 0, 1⟩).items_processed
          + (enqueue 5 ⟨[⟨0, 9⟩], 1, 0, 1⟩).total_size
          = (enqueue 5 ⟨[⟨0, 9⟩], 1, 0, 1⟩).items_enqueued) ∧
      (∀ p dq2, dequeue 1 ⟨[⟨0, 9⟩], 1, 0, 1⟩ ⟨[], 0⟩ = some (p, dq2) →
          dq2.items_processed + dq2.total_size = dq2.items_enqueued) ∧
      ((tryDequeue ⟨[⟨0, 9⟩], 1, 0, 1⟩).2.items_processed
          + (tryDequeue ⟨[⟨0, 9⟩], 1, 0, 1⟩).2.total_size
          = (tryDequeue ⟨[⟨0, 9⟩], 1, 0, 1⟩).2.items_enqueued) ∧
      ((destroyQueue ⟨[⟨0, 9⟩], 1, 0, 1⟩ ⟨[], 0⟩).2.2.1.items_processed
          + (destroyQueue ⟨[⟨0, 9⟩], 1, 0, 1⟩ ⟨[], 0⟩).2.2.1.total_size
          = (destroyQueue ⟨[⟨0, 9⟩], 1, 0, 1⟩ ⟨[], 0⟩).2.2.1.items_enqueued)) :=
  ⟨by decide, by decide,
    counter_invariant_preserved 5 1 ⟨[⟨0, 9⟩], 1, 0, 1⟩ ⟨[], 0⟩ (by decide) (by decide)⟩

/-- Claim C9: destroyQueue, from any state, frees exactly the remaining
items, zeroes the data queue and all three counters, and for every waiter
registered at shutdown produces exactly one signal event carrying that
waiter with its terminated flag set (in registration order), leaving the
registry empty with waiting count zero. -/
theorem destroyQueue_terminates_and_clears (dq : DataQueue) (tq : ThreadQueue) :
    (destroyQueue dq tq).1 = dq.items ∧
    (destroyQueue dq tq).2.2.1 = ⟨[], 0, 0, 0⟩ ∧
    (destroyQueue dq tq).2.1 = tq.nodes.map (fun n => { n with terminated := true }) ∧
    (destroyQueue dq tq).2.2.2 = ⟨[], 0⟩ :=
  ⟨rfl, rfl, teardownWalk_eq_map tq.nodes, rfl⟩

/-- Claim C10: a thread with no record in the registry gets the sentinel -1
from fetchFirstWaitConditionStatus, and on any non-empty queue with a
non-negative front index the yield test is false for it - even when the
registered waiters outnumber the queue size - so an unregistered consumer
proceeds to take the front item rather than yielding to the registered
waiters. -/
theorem unregistered_thread_does_not_yield (tid : Nat) (dq : DataQueue) (tq : ThreadQueue)
    (hreg : ∀ n ∈ tq.nodes, n.thread_id ≠ tid)
    (hne : dq.items ≠ []) (hwf : dq.total_size = dq.items.length)
    (hidx : 0 ≤ headItemIndex dq) :
    fetchFirstWaitConditionStatus tid tq = -1 ∧
      checkIfThreadShouldYield tid dq tq = false := by
  have hsz : dq.total_size ≠ 0 := by
    rw [hwf]
    intro h0
    exact hne (List.eq_nil_of_length_eq_zero h0)
  exact ⟨lookupWaitIndex_of_unregistered tid tq.nodes hreg,
    yield_false_of_unregistered tid dq tq hreg hsz hidx⟩

/-- Claim C10 witness: the theorem at a concrete input where three waiters
outnumber the single item and the caller (thread 5) is unregistered. -/
theorem unregistered_thread_does_not_yield_witness :
    (∀ n ∈ ([⟨1, false, 0⟩, ⟨2, false, 1⟩, ⟨3, false, 2⟩] : List QueueNode),
        n.thread_id ≠ 5) ∧
    fetchFirstWaitConditionStatus 5 ⟨[⟨1, false, 0⟩, ⟨2, false, 1⟩, ⟨3, false, 2⟩], 3⟩ = -1 ∧
    checkIfThreadShouldYield 5 ⟨[⟨0, 10⟩], 1, 0, 1⟩
      ⟨[⟨1, false, 0⟩, ⟨2, false, 1⟩, ⟨3, false, 2⟩], 3⟩ = false :=
  ⟨by decide,
    unregistered_thread_does_not_yield 5 ⟨[⟨0, 10⟩], 1, 0, 1⟩
      ⟨[⟨1, false, 0⟩, ⟨2, false, 1⟩, ⟨3, false, 2⟩], 3⟩ (by decide) (by decide)
      (by decide) (by decide)⟩

end OSQueue
